import Mathlib

/-!
Formal model of the web3d benchmark measurement and aggregation engine.

The model is a shallow embedding of the JavaScript sources:
numbers are embedded as exact rationals, the two `BenchmarkHarness`
classes become state-transition functions on explicit state records
(namespaces `Part006` and `Part007`, after the two harness source files),
and the pure statistics helpers of `automation/runner.js` and of
`calculateStatistics` become functions over `List` of rationals.
DOM and console side effects (status labels, overlay, log lines) are not
part of the state; the error marker `window.__BENCHMARK_ERROR__` is
modelled by an `errorMessage` field and the `benchmark-complete` signal by
a `finalizeCount` counter.
-/

namespace Web3d

/-- Left-fold sum, embedding `arr.reduce((a, b) => a + b, 0)`
(`automation/runner.js` `getMean`, and the `sum` helper of
`calculateStatistics` in the timed harness). -/
def listSum (xs : List ℚ) : ℚ := xs.foldl (· + ·) 0

/-- `getMean` of `automation/runner.js` (also the `mean` helper of
`calculateStatistics`): reduce-sum divided by length. -/
def getMean (xs : List ℚ) : ℚ := listSum xs / xs.length

/-- The radicand of `getStdDev` of `automation/runner.js` (also the
`variance` helper of `calculateStatistics`):
`arr.reduce((sq, n) => sq + Math.pow(n - mean, 2), 0) / arr.length`. -/
def getVariance (xs : List ℚ) (m : ℚ) : ℚ :=
  (xs.foldl (fun sq n => sq + (n - m) ^ 2) 0) / xs.length

/-- `getStdDev` of `automation/runner.js` (also `stdDev` of
`calculateStatistics`): the square root of `getVariance`.  The square
root over the reals is the exact counterpart of `Math.sqrt`. -/
noncomputable def getStdDev (xs : List ℚ) (m : ℚ) : ℝ :=
  Real.sqrt (getVariance xs m)

/-- Ascending sort, embedding `[...arr].sort((a, b) => a - b)`: the
numeric-comparator sort returns an ascending reordering of the array. -/
def sortAscending (xs : List ℚ) : List ℚ := List.insertionSort (· ≤ ·) xs

/-- The percentile index `Math.floor(sorted.length * 0.95)` of `getP95`
(`automation/runner.js` and the `p95` helper of `calculateStatistics`). -/
def p95Index (n : ℕ) : ℕ := (⌊(n : ℚ) * (95 / 100)⌋).toNat

/-- `getP95` of `automation/runner.js` (also the `p95` helper of
`calculateStatistics`): sort ascending and take the element at
`p95Index`.  Out-of-range access (empty input only) is given default 0;
on nonempty input the index is always in range (proved below). -/
def getP95 (xs : List ℚ) : ℚ := (sortAscending xs).getD (p95Index xs.length) 0

/-- Specification-side population standard deviation, written from the
spec text `stddev(xs) = sqrt(mean((x - mean(xs))^2 for x in xs))`, for
comparison with the source-side `getStdDev`. -/
noncomputable def populationStdDev (xs : List ℚ) : ℝ :=
  Real.sqrt (getMean (xs.map (fun x => (x - getMean xs) ^ 2)))

/-- The `durationMode` setting of both harnesses: the string field takes
only the values written in the sources, `time` and `frames`. -/
inductive Mode where
  | time : Mode
  | frames : Mode
  deriving DecidableEq

namespace Part006

/-- The mutable `this.results` record of the timed harness
(`resetResults`).  `stdFrameTime` is the one source field kept outside
this record: it is the real square root of the variance of `frames`,
recomputed at finalization, and is provided as the derived projection
`Results.stdFrameTime` below (real square roots have no executable
representative, and no control flow of the harness reads the field). -/
structure Results where
  frames : List ℚ
  cpuTimes : List ℚ
  gpuTimes : List ℚ
  totalTime : ℚ
  fps : ℚ
  initTime : ℚ
  meanFrameTime : ℚ
  p95FrameTime : ℚ
  meanCpuTime : ℚ
  meanGpuTime : ℚ
  deriving DecidableEq

/-- `resetResults`: all sequences empty, all scalars 0. -/
def Results.reset : Results :=
  { frames := [], cpuTimes := [], gpuTimes := [], totalTime := 0, fps := 0,
    initTime := 0, meanFrameTime := 0, p95FrameTime := 0, meanCpuTime := 0,
    meanGpuTime := 0 }

/-- The derived `stdFrameTime` field written by `calculateStatistics`:
`stdDev(frames)` when `frames` is nonempty, otherwise its initial 0. -/
noncomputable def Results.stdFrameTime (r : Results) : ℝ :=
  if 0 < r.frames.length then getStdDev r.frames (getMean r.frames) else 0

/-- State of the timed `BenchmarkHarness` (the warm-up/record harness).
`cpuMark` models the pending `frame-cpu-start` performance mark (the
mark, measure and clear calls of the source collapse to setting and
clearing this option); `errorMessage` models
`window.__BENCHMARK_ERROR__`; `finalizeCount` counts `finalizeResults`
invocations, i.e. dispatches of the `benchmark-complete` signal. -/
structure BenchmarkHarness where
  results : Results
  warmupDuration : ℚ
  targetDuration : ℚ
  durationMode : Mode
  targetFrames : ℕ
  initialized : Bool
  isWarmingUp : Bool
  isComplete : Bool
  initStartTime : ℚ
  startTime : ℚ
  lastFrameTime : ℚ
  activeFrameCount : ℕ
  warmupFrameCount : ℕ
  gpuSupportTimestamp : Bool
  cpuMark : Option ℚ
  uiAccumulator : ℚ
  uiFrameCount : ℕ
  errorMessage : Option String
  finalizeCount : ℕ
  deriving DecidableEq

/-- The constructor of the timed harness: fresh results and the default
settings (1000 ms warm-up, 3 s recording target, time mode, 120 target
frames). -/
def BenchmarkHarness.init : BenchmarkHarness :=
  { results := Results.reset, warmupDuration := 1000, targetDuration := 3,
    durationMode := Mode.time, targetFrames := 120, initialized := false,
    isWarmingUp := true, isComplete := false, initStartTime := 0,
    startTime := 0, lastFrameTime := 0, activeFrameCount := 0,
    warmupFrameCount := 0, gpuSupportTimestamp := false, cpuMark := none,
    uiAccumulator := 0, uiFrameCount := 0, errorMessage := none,
    finalizeCount := 0 }

/-- `startInitTimer`. -/
def BenchmarkHarness.startInitTimer (now : ℚ) (s : BenchmarkHarness) : BenchmarkHarness :=
  { s with initStartTime := now }

/-- `endInitTimer`: records `initTime`, marks the harness initialized and
starts the warm-up reference clock. -/
def BenchmarkHarness.endInitTimer (now : ℚ) (s : BenchmarkHarness) : BenchmarkHarness :=
  { s with results := { s.results with initTime := now - s.initStartTime },
           initialized := true, startTime := now, lastFrameTime := now }

/-- `initWebGPUTimestamps`: capability negotiation; the argument is
whether the device has the `timestamp-query` feature. -/
def BenchmarkHarness.initWebGPUTimestamps (supported : Bool) (s : BenchmarkHarness) : BenchmarkHarness :=
  { s with gpuSupportTimestamp := supported }

/-- `startFrame`: no-op when complete; during warm-up either exits
warm-up (resetting the reference clock and active frame count, then
falling through to place the CPU start mark) or counts a dropped warm-up
frame and returns; when recording, places the CPU start mark. -/
def BenchmarkHarness.startFrame (now : ℚ) (s : BenchmarkHarness) : BenchmarkHarness :=
  if s.isComplete then s
  else if s.isWarmingUp then
    if s.warmupDuration < now - s.startTime then
      { s with isWarmingUp := false, startTime := now, lastFrameTime := now,
               activeFrameCount := 0, cpuMark := some now }
    else
      { s with warmupFrameCount := s.warmupFrameCount + 1 }
  else
    { s with cpuMark := some now }

/-- `calculateStatistics`: writes the derived scalar fields from the
three (nonempty) sample sequences.  `stdFrameTime` is the derived
projection `Results.stdFrameTime` of the result. -/
def calculateStatistics (r : Results) : Results :=
  let r1 :=
    if 0 < r.frames.length then
      { r with meanFrameTime := getMean r.frames,
               p95FrameTime := getP95 r.frames,
               fps := 1000 / getMean r.frames }
    else r
  let r2 :=
    if 0 < r1.cpuTimes.length then { r1 with meanCpuTime := getMean r1.cpuTimes }
    else r1
  if 0 < r2.gpuTimes.length then { r2 with meanGpuTime := getMean r2.gpuTimes }
  else r2

/-- `finalizeResults`: records `totalTime`, runs `calculateStatistics`
and dispatches the completion signal (counted by `finalizeCount`). -/
def finalizeResults (now : ℚ) (s : BenchmarkHarness) : BenchmarkHarness :=
  let s1 := { s with results := { s.results with totalTime := now - s.startTime } }
  let s2 := { s1 with results := calculateStatistics s1.results }
  { s2 with finalizeCount := s2.finalizeCount + 1 }

/-- `checkCompletion`: in time mode completes when the elapsed recording
time strictly exceeds `targetDuration * 1000` ms; in frames mode when
`activeFrameCount` has reached `targetFrames`.  The source computes a
local `complete` flag across the two `durationMode` branches and then
finalizes once; the per-branch finalization here is the same function. -/
def checkCompletion (now : ℚ) (s : BenchmarkHarness) : BenchmarkHarness :=
  match s.durationMode with
  | Mode.time =>
      if s.targetDuration * 1000 < now - s.startTime then
        finalizeResults now { s with isComplete := true }
      else s
  | Mode.frames =>
      if s.targetFrames ≤ s.activeFrameCount then
        finalizeResults now { s with isComplete := true }
      else s

/-- The CPU span measured by `endFrame` between the `frame-cpu-start`
mark and the end mark placed at `now`: when no start mark exists the
`performance.measure` call throws and the tolerated failure leaves the
measurement at 0. -/
def measuredCpuTime (now : ℚ) (s : BenchmarkHarness) : ℚ :=
  match s.cpuMark with
  | some t => now - t
  | none => 0

/-- `endFrame`: when complete or warming up only refreshes
`lastFrameTime`; otherwise measures the CPU span since the start mark
(0 when the mark is missing, the tolerated measure failure), appends the
wall-clock inter-frame duration and the CPU time, updates the rolling UI
accumulator (reset every 10 frames) and checks completion. -/
def endFrame (now : ℚ) (s : BenchmarkHarness) : BenchmarkHarness :=
  if s.isComplete || s.isWarmingUp then { s with lastFrameTime := now }
  else
    let cpuTime := measuredCpuTime now s
    let duration := now - s.lastFrameTime
    let s1 := { s with
      cpuMark := none,
      results := { s.results with
        frames := s.results.frames ++ [duration],
        cpuTimes := s.results.cpuTimes ++ [cpuTime] },
      lastFrameTime := now,
      activeFrameCount := s.activeFrameCount + 1,
      uiAccumulator := s.uiAccumulator + duration,
      uiFrameCount := s.uiFrameCount + 1 }
    let s2 :=
      if 10 ≤ s1.uiFrameCount then { s1 with uiAccumulator := 0, uiFrameCount := 0 }
      else s1
    checkCompletion now s2

/-- `beginGPUTimestamp`: the returned flag records whether a timestamp
write was issued into the command encoder (the encoder itself is outside
the harness state). -/
def beginGPUTimestamp (s : BenchmarkHarness) : BenchmarkHarness × Bool :=
  if !s.gpuSupportTimestamp || s.isWarmingUp || s.isComplete then (s, false)
  else (s, true)

/-- `endGPUTimestamp`: as `beginGPUTimestamp`; the resolve and copy
commands also go to the encoder, not the harness state. -/
def endGPUTimestamp (s : BenchmarkHarness) : BenchmarkHarness × Bool :=
  if !s.gpuSupportTimestamp || s.isWarmingUp || s.isComplete then (s, false)
  else (s, true)

/-- `resolveGPUTimestamp`: the two raw nanosecond timestamps read from
the mapped result buffer are the arguments.  Returns -1 without touching
the state when unsupported, warming up or complete; otherwise converts
to milliseconds, appends the duration only when it is nonnegative, and
returns it. -/
def resolveGPUTimestamp (tsStart tsEnd : ℚ) (s : BenchmarkHarness) : BenchmarkHarness × ℚ :=
  if !s.gpuSupportTimestamp || s.isWarmingUp || s.isComplete then (s, -1)
  else
    let durationMs := (tsEnd - tsStart) / 1000000
    if 0 ≤ durationMs then
      ({ s with results := { s.results with gpuTimes := s.results.gpuTimes ++ [durationMs] } },
       durationMs)
    else (s, durationMs)

/-- `reportError`: shows the overlay and records the message in
`window.__BENCHMARK_ERROR__` (the `errorMessage` field); nothing else of
the harness state is touched. -/
def reportError (msg : String) (s : BenchmarkHarness) : BenchmarkHarness :=
  { s with errorMessage := some msg }

/-- The per-frame calls a driver can make on a live timed harness. -/
inductive Op where
  | startFrame (now : ℚ)
  | endFrame (now : ℚ)
  | beginGPUTimestamp
  | endGPUTimestamp
  | resolveGPUTimestamp (tsStart tsEnd : ℚ)
  | reportError (msg : String)

/-- One driver call, with returned values projected away. -/
def step (op : Op) (s : BenchmarkHarness) : BenchmarkHarness :=
  match op with
  | Op.startFrame now => BenchmarkHarness.startFrame now s
  | Op.endFrame now => endFrame now s
  | Op.beginGPUTimestamp => (beginGPUTimestamp s).1
  | Op.endGPUTimestamp => (endGPUTimestamp s).1
  | Op.resolveGPUTimestamp a b => (resolveGPUTimestamp a b s).1
  | Op.reportError msg => reportError msg s

/-- A sequence of driver calls. -/
def run (ops : List Op) (s : BenchmarkHarness) : BenchmarkHarness :=
  ops.foldl (fun t op => step op t) s

/-- The stop condition evaluated by `checkCompletion` on the state it
receives. -/
def stopCond (now : ℚ) (s : BenchmarkHarness) : Prop :=
  match s.durationMode with
  | Mode.time => s.targetDuration * 1000 < now - s.startTime
  | Mode.frames => s.targetFrames ≤ s.activeFrameCount

end Part006

namespace Part007

/-- The `this.results` record of the frame-count harness. -/
structure Results where
  frames : List ℚ
  totalTime : ℚ
  fps : ℚ
  initTime : ℚ
  gpuTimes : List ℚ
  deriving DecidableEq

/-- State of the frame-count `BenchmarkHarness`.  `errorMessage` models
`window.__BENCHMARK_ERROR__`. -/
structure BenchmarkHarness where
  results : Results
  initialized : Bool
  initStartTime : ℚ
  startTime : ℚ
  lastFrameTime : ℚ
  frameCount : ℕ
  durationMode : Mode
  targetDuration : ℚ
  targetFrames : ℕ
  isComplete : Bool
  uiAccumulator : ℚ
  uiFrameCount : ℕ
  errorMessage : Option String
  deriving DecidableEq

/-- The constructor of the frame-count harness: empty results and the
default settings (frames mode, 5 s time target, 500 target frames). -/
def BenchmarkHarness.init : BenchmarkHarness :=
  { results := { frames := [], totalTime := 0, fps := 0, initTime := 0, gpuTimes := [] },
    initialized := false, initStartTime := 0, startTime := 0,
    lastFrameTime := 0, frameCount := 0, durationMode := Mode.frames,
    targetDuration := 5, targetFrames := 500, isComplete := false,
    uiAccumulator := 0, uiFrameCount := 0, errorMessage := none }

/-- `startInitTimer`. -/
def BenchmarkHarness.startInitTimer (now : ℚ) (s : BenchmarkHarness) : BenchmarkHarness :=
  { s with initStartTime := now }

/-- `endInitTimer`: records `initTime` and marks the harness
initialized. -/
def BenchmarkHarness.endInitTimer (now : ℚ) (s : BenchmarkHarness) : BenchmarkHarness :=
  { s with results := { s.results with initTime := now - s.initStartTime },
           initialized := true }

/-- `startFrame`: no-op when complete; on the very first iteration
(`frameCount = 0`) starts the reference clock. -/
def BenchmarkHarness.startFrame (now : ℚ) (s : BenchmarkHarness) : BenchmarkHarness :=
  if s.isComplete then s
  else if s.frameCount = 0 then { s with startTime := now, lastFrameTime := now }
  else s

/-- `finalizeResults`: records `totalTime` and the whole-run
`fps = (frames.length / totalTime) * 1000`, and dispatches the
completion signal. -/
def finalizeResults (now : ℚ) (s : BenchmarkHarness) : BenchmarkHarness :=
  { s with results := { s.results with
      totalTime := now - s.startTime,
      fps := ((s.results.frames.length : ℚ) / (now - s.startTime)) * 1000 } }

/-- `checkCompletion`: time mode completes when the elapsed time
strictly exceeds `targetDuration * 1000` ms; frames mode when
`frameCount` has reached `targetFrames`. -/
def checkCompletion (now : ℚ) (s : BenchmarkHarness) : BenchmarkHarness :=
  match s.durationMode with
  | Mode.time =>
      if s.targetDuration * 1000 < now - s.startTime then
        finalizeResults now { s with isComplete := true }
      else s
  | Mode.frames =>
      if s.targetFrames ≤ s.frameCount then
        finalizeResults now { s with isComplete := true }
      else s

/-- `endFrame(gpuTimeMs = -1)`: no-op when complete; otherwise computes
the inter-frame duration, appends it (and, when `0 ≤ gpuTimeMs`, the GPU
duration) only when `0 < frameCount` — the very first frame is discarded
as initial paint overhead — then advances the clock and frame count,
updates the rolling UI accumulator and checks completion. -/
def endFrame (now : ℚ) (gpuTimeMs : ℚ) (s : BenchmarkHarness) : BenchmarkHarness :=
  if s.isComplete then s
  else
    let duration := now - s.lastFrameTime
    let s1 :=
      if 0 < s.frameCount then
        { s with results := { s.results with
            frames := s.results.frames ++ [duration],
            gpuTimes :=
              if 0 ≤ gpuTimeMs then s.results.gpuTimes ++ [gpuTimeMs]
              else s.results.gpuTimes } }
      else s
    let s2 := { s1 with
      lastFrameTime := now,
      frameCount := s1.frameCount + 1,
      uiAccumulator := s1.uiAccumulator + duration,
      uiFrameCount := s1.uiFrameCount + 1 }
    let s3 :=
      if 10 ≤ s2.uiFrameCount then { s2 with uiAccumulator := 0, uiFrameCount := 0 }
      else s2
    checkCompletion now s3

/-- `reportError`: records the message; nothing else is touched. -/
def reportError (msg : String) (s : BenchmarkHarness) : BenchmarkHarness :=
  { s with errorMessage := some msg }

/-- The per-frame calls a driver can make on a live frame-count
harness. -/
inductive Op where
  | startFrame (now : ℚ)
  | endFrame (now : ℚ) (gpuTimeMs : ℚ)
  | reportError (msg : String)

/-- One driver call. -/
def step (op : Op) (s : BenchmarkHarness) : BenchmarkHarness :=
  match op with
  | Op.startFrame now => BenchmarkHarness.startFrame now s
  | Op.endFrame now g => endFrame now g s
  | Op.reportError msg => reportError msg s

/-- A sequence of driver calls. -/
def run (ops : List Op) (s : BenchmarkHarness) : BenchmarkHarness :=
  ops.foldl (fun t op => step op t) s

/-- The frame-count harness configured for a frames-mode run to `T`
target frames, as the automated drivers do by assigning
`harness.targetFrames`. -/
def initCfg (T : ℕ) : BenchmarkHarness :=
  { BenchmarkHarness.init with targetFrames := T }

/-- Verification invariant for frames-mode runs: the recorded frame
count always lags the iteration counter by the one discarded first
frame, and a completed run holds exactly `T - 1` samples. -/
def framesInv (T : ℕ) (s : BenchmarkHarness) : Prop :=
  s.durationMode = Mode.frames ∧
  s.targetFrames = T ∧
  (s.isComplete = false →
    s.frameCount < T ∧ s.results.frames.length = s.frameCount - 1) ∧
  (s.isComplete = true → s.results.frames.length = T - 1)

end Part007

/-- The per-trial metric record the orchestrator keeps for one
successful run (`automation/runner.js`, the object pushed onto
`currentTestRuns`). -/
structure TrialMetrics where
  fps : ℚ
  meanFrameTime : ℚ
  stdFrameTime : ℚ
  p95FrameTime : ℚ
  meanCpuTime : ℚ
  meanGpuTime : ℚ
  initTime : ℚ
  deriving DecidableEq

/-- The aggregate record pushed for a configuration point with at least
one successful run. -/
structure AggSuccess where
  api : String
  scenario : String
  count : ℕ
  runsSuccessful : ℕ
  meanFps : ℚ
  stdFps : ℝ
  meanFrameTime : ℚ
  stdFrameTime : ℝ
  meanP95FrameTime : ℚ
  meanCpuTime : ℚ
  meanGpuTime : ℚ
  meanInitTime : ℚ

/-- The record pushed for a configuration point whose runs all failed:
only the coordinate and the error marker, no statistics fields. -/
structure AggFailure where
  api : String
  scenario : String
  count : ℕ
  error : String
  deriving DecidableEq

/-- One entry of the final report's `data` array. -/
inductive AggEntry where
  | success (a : AggSuccess)
  | failure (f : AggFailure)

/-- The `runsSuccessful` field of a report entry, when the entry has
one. -/
def AggEntry.runsSuccessfulField : AggEntry → Option ℕ
  | AggEntry.success a => some a.runsSuccessful
  | AggEntry.failure _ => none

/-- The `meanFps` field of a report entry, when the entry has one. -/
def AggEntry.meanFpsField : AggEntry → Option ℚ
  | AggEntry.success a => some a.meanFps
  | AggEntry.failure _ => none

/-- The `stdFps` field of a report entry, when the entry has one. -/
noncomputable def AggEntry.stdFpsField : AggEntry → Option ℝ
  | AggEntry.success a => some a.stdFps
  | AggEntry.failure _ => none

/-- The inner loop of `runBenchmark` for one configuration point: each
of the N runs either yields a metric record or fails (is caught and
skipped); with at least one success the aggregate statistics are pushed,
otherwise the explicit failure entry. -/
noncomputable def aggregatePoint (api scenario : String) (count : ℕ)
    (outcomes : List (Option TrialMetrics)) : AggEntry :=
  let currentTestRuns := outcomes.filterMap id
  if 0 < currentTestRuns.length then
    AggEntry.success
      { api := api, scenario := scenario, count := count,
        runsSuccessful := currentTestRuns.length,
        meanFps := getMean (currentTestRuns.map TrialMetrics.fps),
        stdFps := getStdDev (currentTestRuns.map TrialMetrics.fps)
          (getMean (currentTestRuns.map TrialMetrics.fps)),
        meanFrameTime := getMean (currentTestRuns.map TrialMetrics.meanFrameTime),
        stdFrameTime := getStdDev (currentTestRuns.map TrialMetrics.meanFrameTime)
          (getMean (currentTestRuns.map TrialMetrics.meanFrameTime)),
        meanP95FrameTime := getMean (currentTestRuns.map TrialMetrics.p95FrameTime),
        meanCpuTime := getMean (currentTestRuns.map TrialMetrics.meanCpuTime),
        meanGpuTime := getMean (currentTestRuns.map TrialMetrics.meanGpuTime),
        meanInitTime := getMean (currentTestRuns.map TrialMetrics.initTime) }
  else
    AggEntry.failure { api := api, scenario := scenario, count := count,
                       error := "All runs failed" }

/-- One configuration point of the sweep together with the outcomes of
its N runs. -/
structure PointRun where
  api : String
  scenario : String
  count : ℕ
  outcomes : List (Option TrialMetrics)

/-- The sweep loops of `runBenchmark`: one report entry per
configuration point, in order, regardless of per-point failures. -/
noncomputable def sweep (points : List PointRun) : List AggEntry :=
  points.map (fun p => aggregatePoint p.api p.scenario p.count p.outcomes)

/-- The CSV projection of one report entry: the eight statistics columns
(as values; `toFixed` formatting is dropped) and the error column.  A
failure entry contributes only empty statistics cells and the error
message. -/
noncomputable def csvRow (e : AggEntry) : List (Option ℝ) × Option String :=
  match e with
  | AggEntry.failure f => (List.replicate 8 none, some f.error)
  | AggEntry.success a =>
      ([some (a.meanFps : ℝ), some a.stdFps, some (a.meanFrameTime : ℝ),
        some a.stdFrameTime, some (a.meanP95FrameTime : ℝ),
        some (a.meanCpuTime : ℝ), some (a.meanGpuTime : ℝ),
        some (a.meanInitTime : ℝ)], none)

/-- The sample sequence 1..20 used by the spec's percentile example. -/
def oneToTwenty : List ℚ :=
  [1, 2, 3, 4, 5, 6, 7, 8, 9, 10, 11, 12, 13, 14, 15, 16, 17, 18, 19, 20]

/-- The ten per-trial fps values of the spec's aggregation example. -/
def fpsValues : List ℚ := [58, 59, 60, 61, 60, 59, 58, 62, 60, 61]

/-- A trial metric record carrying a given fps value (the other fields
are irrelevant to the fps aggregation). -/
def trialWithFps (q : ℚ) : TrialMetrics :=
  { fps := q, meanFrameTime := 0, stdFrameTime := 0, p95FrameTime := 0,
    meanCpuTime := 0, meanGpuTime := 0, initTime := 0 }

theorem foldl_add_eq (xs : List ℚ) :
    ∀ a : ℚ, xs.foldl (· + ·) a = a + xs.sum := by
  induction xs with
  | nil => simp
  | cons x xs ih => intro a; simp [ih, add_assoc]

theorem listSum_eq_sum (xs : List ℚ) : listSum xs = xs.sum := by
  simpa [listSum] using foldl_add_eq xs 0

theorem foldl_sqsum_eq (xs : List ℚ) (m : ℚ) :
    ∀ a : ℚ, xs.foldl (fun sq n => sq + (n - m) ^ 2) a
      = a + ((xs.map (fun x => (x - m) ^ 2)).sum) := by
  induction xs with
  | nil => simp
  | cons x xs ih => intro a; simp [ih, add_assoc]

theorem getVariance_eq_meanSq (xs : List ℚ) (m : ℚ) :
    getVariance xs m = getMean (xs.map (fun x => (x - m) ^ 2)) := by
  simp [getVariance, getMean, listSum_eq_sum, foldl_sqsum_eq]

theorem getStdDev_eq_populationStdDev (xs : List ℚ) :
    getStdDev xs (getMean xs) = populationStdDev xs := by
  simp [getStdDev, populationStdDev, getVariance_eq_meanSq]

theorem p95Index_eq (n : ℕ) : p95Index n = n * 95 / 100 := by
  have h : (n : ℚ) * (95 / 100) = (((n * 95 : ℕ) : ℤ) : ℚ) / ((100 : ℕ) : ℚ) := by
    push_cast
    ring
  rw [p95Index, h, Rat.floor_intCast_div_natCast]
  have h2 : ((n * 95 : ℕ) : ℤ) / ((100 : ℕ) : ℤ) = ((n * 95 / 100 : ℕ) : ℤ) := by
    norm_cast
  rw [h2]
  exact Int.toNat_natCast _

theorem p95Index_lt (n : ℕ) (h : 0 < n) : p95Index n < n := by
  rw [p95Index_eq]
  have : n * 95 < n * 100 := by omega
  exact Nat.div_lt_of_lt_mul (by omega)

theorem sortAscending_length (xs : List ℚ) :
    (sortAscending xs).length = xs.length := by
  simp [sortAscending, List.length_insertionSort]

theorem getP95_eq_get (xs : List ℚ) (h : xs ≠ []) :
    ∃ hlt : p95Index xs.length < (sortAscending xs).length,
      getP95 xs = (sortAscending xs).get ⟨p95Index xs.length, hlt⟩ := by
  have hpos : 0 < xs.length := List.length_pos.mpr h
  have hlt : p95Index xs.length < (sortAscending xs).length := by
    rw [sortAscending_length]
    exact p95Index_lt xs.length hpos
  exact ⟨hlt, List.getD_eq_getElem (sortAscending xs) 0 hlt⟩

namespace Part006

theorem run_nil (s : BenchmarkHarness) : run [] s = s := rfl

theorem run_cons (op : Op) (ops : List Op) (s : BenchmarkHarness) :
    run (op :: ops) s = run ops (step op s) := rfl

theorem finalizeResults_eq (now : ℚ) (s : BenchmarkHarness) :
    finalizeResults now s =
      { s with
        results := calculateStatistics { s.results with totalTime := now - s.startTime },
        finalizeCount := s.finalizeCount + 1 } := rfl

theorem calculateStatistics_samples (r : Results) :
    (calculateStatistics r).frames = r.frames ∧
    (calculateStatistics r).cpuTimes = r.cpuTimes ∧
    (calculateStatistics r).gpuTimes = r.gpuTimes ∧
    (calculateStatistics r).totalTime = r.totalTime ∧
    (calculateStatistics r).initTime = r.initTime := by
  simp only [calculateStatistics]
  split_ifs <;> simp_all

theorem calculateStatistics_stats (r : Results) :
    (0 < r.frames.length →
      (calculateStatistics r).meanFrameTime = getMean r.frames ∧
      (calculateStatistics r).p95FrameTime = getP95 r.frames ∧
      (calculateStatistics r).fps = 1000 / getMean r.frames) ∧
    (0 < r.cpuTimes.length →
      (calculateStatistics r).meanCpuTime = getMean r.cpuTimes) ∧
    (0 < r.gpuTimes.length →
      (calculateStatistics r).meanGpuTime = getMean r.gpuTimes) := by
  simp only [calculateStatistics]
  split_ifs <;> simp_all

theorem checkCompletion_proj (now : ℚ) (s : BenchmarkHarness) :
    (checkCompletion now s).isWarmingUp = s.isWarmingUp ∧
    (checkCompletion now s).gpuSupportTimestamp = s.gpuSupportTimestamp ∧
    (checkCompletion now s).results.frames = s.results.frames ∧
    (checkCompletion now s).results.cpuTimes = s.results.cpuTimes ∧
    (checkCompletion now s).results.gpuTimes = s.results.gpuTimes ∧
    (checkCompletion now s).errorMessage = s.errorMessage ∧
    (checkCompletion now s).activeFrameCount = s.activeFrameCount ∧
    (checkCompletion now s).startTime = s.startTime ∧
    (checkCompletion now s).durationMode = s.durationMode ∧
    (checkCompletion now s).targetFrames = s.targetFrames := by
  obtain ⟨hf, hcpu, hgpu, htot, hinit⟩ :=
    calculateStatistics_samples { s.results with totalTime := now - s.startTime }
  unfold checkCompletion
  cases hd : s.durationMode <;>
    split_ifs <;>
    simp_all [finalizeResults_eq]

theorem checkCompletion_facts (now : ℚ) (s : BenchmarkHarness)
    (hc : s.isComplete = false) :
    (checkCompletion now s).results.frames = s.results.frames ∧
    (checkCompletion now s).results.cpuTimes = s.results.cpuTimes ∧
    (checkCompletion now s).results.gpuTimes = s.results.gpuTimes ∧
    (checkCompletion now s).activeFrameCount = s.activeFrameCount ∧
    (checkCompletion now s).isWarmingUp = s.isWarmingUp ∧
    (checkCompletion now s).startTime = s.startTime ∧
    (checkCompletion now s).durationMode = s.durationMode ∧
    (checkCompletion now s).gpuSupportTimestamp = s.gpuSupportTimestamp ∧
    ((checkCompletion now s).isComplete = true ↔ stopCond now s) ∧
    (stopCond now s →
      (checkCompletion now s).finalizeCount = s.finalizeCount + 1 ∧
      (checkCompletion now s).results.totalTime = now - s.startTime ∧
      (0 < s.results.frames.length →
        (checkCompletion now s).results.meanFrameTime = getMean s.results.frames ∧
        (checkCompletion now s).results.p95FrameTime = getP95 s.results.frames ∧
        (checkCompletion now s).results.fps = 1000 / getMean s.results.frames) ∧
      (0 < s.results.cpuTimes.length →
        (checkCompletion now s).results.meanCpuTime = getMean s.results.cpuTimes)) ∧
    (¬ stopCond now s → checkCompletion now s = s) := by
  obtain ⟨hf, hcpu, hgpu, htot, hinit⟩ :=
    calculateStatistics_samples { s.results with totalTime := now - s.startTime }
  obtain ⟨hst1, hst2, hst3⟩ :=
    calculateStatistics_stats { s.results with totalTime := now - s.startTime }
  unfold checkCompletion stopCond
  cases hd : s.durationMode <;>
    split_ifs with hcond <;>
    simp_all [finalizeResults_eq]

theorem step_complete (op : Op) (s : BenchmarkHarness)
    (h : s.isComplete = true) :
    (step op s).isComplete = true ∧
    (step op s).results = s.results ∧
    (step op s).finalizeCount = s.finalizeCount ∧
    (step op s).isWarmingUp = s.isWarmingUp ∧
    (step op s).gpuSupportTimestamp = s.gpuSupportTimestamp := by
  cases op <;>
    simp [step, BenchmarkHarness.startFrame, endFrame, beginGPUTimestamp,
      endGPUTimestamp, resolveGPUTimestamp, reportError, h]

theorem run_complete (ops : List Op) (s : BenchmarkHarness)
    (h : s.isComplete = true) :
    (run ops s).isComplete = true ∧
    (run ops s).results = s.results ∧
    (run ops s).finalizeCount = s.finalizeCount ∧
    (run ops s).isWarmingUp = s.isWarmingUp := by
  induction ops generalizing s with
  | nil => simp [run_nil, h]
  | cons op ops ih =>
      obtain ⟨h1, h2, h3, h4, _⟩ := step_complete op s h
      obtain ⟨g1, g2, g3, g4⟩ := ih (step op s) h1
      exact ⟨g1, h2 ▸ g2, h3 ▸ g3, h4 ▸ g4⟩

theorem step_warmup_samples (op : Op) (s : BenchmarkHarness)
    (h : s.isWarmingUp = true) :
    (step op s).results.frames = s.results.frames ∧
    (step op s).results.cpuTimes = s.results.cpuTimes ∧
    (step op s).results.gpuTimes = s.results.gpuTimes := by
  cases op <;>
    simp only [step, BenchmarkHarness.startFrame, endFrame, beginGPUTimestamp,
      endGPUTimestamp, resolveGPUTimestamp, reportError, h] <;>
    (try split_ifs) <;> simp_all

theorem step_warmup_mono (op : Op) (s : BenchmarkHarness)
    (h : s.isWarmingUp = false) :
    (step op s).isWarmingUp = false := by
  cases op with
  | startFrame now =>
      simp only [step, BenchmarkHarness.startFrame, h]
      split_ifs <;> simp_all
  | endFrame now =>
      by_cases hc : s.isComplete
      · simp [step, endFrame, hc, h]
      · simp only [step, endFrame, hc, h, Bool.or_self, if_false,
          Bool.false_eq_true]
        split_ifs with hui <;>
          rw [(checkCompletion_proj now _).1]
  | beginGPUTimestamp =>
      simp only [step, beginGPUTimestamp]
      split_ifs <;> simp_all
  | endGPUTimestamp =>
      simp only [step, endGPUTimestamp]
      split_ifs <;> simp_all
  | resolveGPUTimestamp a b =>
      simp only [step, resolveGPUTimestamp]
      split_ifs <;> simp_all
  | reportError msg => simp [step, reportError, h]

theorem endFrame_as_check (now : ℚ) (s : BenchmarkHarness)
    (hc : s.isComplete = false) (hw : s.isWarmingUp = false) :
    ∃ t : BenchmarkHarness,
      endFrame now s = checkCompletion now t ∧
      t.isComplete = false ∧
      t.isWarmingUp = false ∧
      t.results.frames = s.results.frames ++ [now - s.lastFrameTime] ∧
      t.results.cpuTimes = s.results.cpuTimes ++ [measuredCpuTime now s] ∧
      t.results.gpuTimes = s.results.gpuTimes ∧
      t.activeFrameCount = s.activeFrameCount + 1 ∧
      t.startTime = s.startTime ∧
      t.durationMode = s.durationMode ∧
      t.targetFrames = s.targetFrames ∧
      t.targetDuration = s.targetDuration ∧
      t.finalizeCount = s.finalizeCount ∧
      t.errorMessage = s.errorMessage ∧
      t.gpuSupportTimestamp = s.gpuSupportTimestamp := by
  simp only [endFrame, hc, hw, Bool.or_self, Bool.false_eq_true, if_false]
  split_ifs with hui <;> exact ⟨_, rfl, by simp [hc, hw]⟩

theorem endFrame_recording (now : ℚ) (s : BenchmarkHarness)
    (hc : s.isComplete = false) (hw : s.isWarmingUp = false) :
    (endFrame now s).results.frames = s.results.frames ++ [now - s.lastFrameTime] ∧
    (endFrame now s).results.cpuTimes = s.results.cpuTimes ++ [measuredCpuTime now s] ∧
    (endFrame now s).results.gpuTimes = s.results.gpuTimes ∧
    (endFrame now s).activeFrameCount = s.activeFrameCount + 1 ∧
    (endFrame now s).isWarmingUp = false ∧
    (endFrame now s).startTime = s.startTime ∧
    ((endFrame now s).isComplete = true ↔
      (s.durationMode = Mode.time ∧ s.targetDuration * 1000 < now - s.startTime) ∨
      (s.durationMode = Mode.frames ∧ s.targetFrames ≤ s.activeFrameCount + 1)) ∧
    ((endFrame now s).isComplete = true →
      (endFrame now s).finalizeCount = s.finalizeCount + 1 ∧
      (endFrame now s).results.totalTime = now - s.startTime ∧
      (endFrame now s).results.meanFrameTime = getMean ((endFrame now s).results.frames) ∧
      (endFrame now s).results.p95FrameTime = getP95 ((endFrame now s).results.frames) ∧
      (endFrame now s).results.fps = 1000 / getMean ((endFrame now s).results.frames) ∧
      (endFrame now s).results.meanCpuTime = getMean ((endFrame now s).results.cpuTimes)) ∧
    ((endFrame now s).isComplete = false →
      (endFrame now s).finalizeCount = s.finalizeCount) := by
  obtain ⟨t, heq, tc, tw, tf, tcpu, tgpu, tact, tst, tdm, ttf, ttd, tfin, terr, tgs⟩ :=
    endFrame_as_check now s hc hw
  obtain ⟨cf, ccpu, cgpu, cact, cw, cst, cdm, cgs, ciff, cstop, cnostop⟩ :=
    checkCompletion_facts now t tc
  have hstop : stopCond now t ↔
      (s.durationMode = Mode.time ∧ s.targetDuration * 1000 < now - s.startTime) ∨
      (s.durationMode = Mode.frames ∧ s.targetFrames ≤ s.activeFrameCount + 1) := by
    unfold stopCond
    rw [tdm]
    cases hd : s.durationMode <;> simp [hd, tst, ttd, ttf, tact]
  have hflen : 0 < t.results.frames.length := by
    rw [tf]; simp
  have hclen : 0 < t.results.cpuTimes.length := by
    rw [tcpu]; simp
  rw [heq]
  refine ⟨by rw [cf, tf], by rw [ccpu, tcpu], by rw [cgpu, tgpu],
    by rw [cact, tact], by rw [cw, tw], by rw [cst, tst],
    by rw [ciff, hstop], ?_, ?_⟩
  · intro hcomp
    have hs : stopCond now t := (ciff.mp hcomp)
    obtain ⟨g1, g2, g3, g4⟩ := cstop hs
    obtain ⟨m1, m2, m3⟩ := g3 hflen
    refine ⟨by rw [g1, tfin], by rw [g2, tst], ?_, ?_, ?_, ?_⟩
    · rw [m1, cf]
    · rw [m2, cf]
    · rw [m3, cf]
    · rw [g4 hclen, ccpu]
  · intro hnc
    have hns : ¬ stopCond now t := by
      intro hs
      rw [ciff.mpr hs] at hnc
      simp at hnc
    rw [cnostop hns, tfin]

theorem run_warmup_mono (ops : List Op) (s : BenchmarkHarness)
    (h : s.isWarmingUp = false) :
    (run ops s).isWarmingUp = false := by
  induction ops generalizing s with
  | nil => simpa [run_nil] using h
  | cons op ops ih => exact ih (step op s) (step_warmup_mono op s h)

theorem step_gpuSupport (op : Op) (s : BenchmarkHarness) :
    (step op s).gpuSupportTimestamp = s.gpuSupportTimestamp := by
  cases op with
  | startFrame now =>
      simp only [step, BenchmarkHarness.startFrame]
      split_ifs <;> rfl
  | endFrame now =>
      by_cases hc : s.isComplete = true
      · simp [step, endFrame, hc]
      · by_cases hw : s.isWarmingUp = true
        · simp [step, endFrame, hc, hw]
        · simp only [step, endFrame, Bool.not_eq_true] at hc hw ⊢
          simp only [hc, hw, Bool.or_self, Bool.false_eq_true, if_false]
          split_ifs with hui <;>
            rw [(checkCompletion_proj now _).2.1]
  | beginGPUTimestamp =>
      simp only [step, beginGPUTimestamp]; split_ifs <;> rfl
  | endGPUTimestamp =>
      simp only [step, endGPUTimestamp]; split_ifs <;> rfl
  | resolveGPUTimestamp a b =>
      simp only [step, resolveGPUTimestamp]
      split_ifs <;> rfl
  | reportError msg => rfl

end Part006

namespace Part007

theorem run_nil_fc (s : BenchmarkHarness) : run [] s = s := rfl

theorem run_cons_fc (op : Op) (ops : List Op) (s : BenchmarkHarness) :
    run (op :: ops) s = run ops (step op s) := rfl

theorem endFrame_complete (now g : ℚ) (s : BenchmarkHarness)
    (h : s.isComplete = true) : endFrame now g s = s := by
  simp [endFrame, h]

theorem startFrame_facts (now : ℚ) (s : BenchmarkHarness) :
    (BenchmarkHarness.startFrame now s).results = s.results ∧
    (BenchmarkHarness.startFrame now s).frameCount = s.frameCount ∧
    (BenchmarkHarness.startFrame now s).isComplete = s.isComplete ∧
    (BenchmarkHarness.startFrame now s).durationMode = s.durationMode ∧
    (BenchmarkHarness.startFrame now s).targetFrames = s.targetFrames := by
  unfold BenchmarkHarness.startFrame
  split_ifs <;> simp_all

theorem finalizeResults_proj (now : ℚ) (s : BenchmarkHarness) :
    (finalizeResults now s).results.frames = s.results.frames ∧
    (finalizeResults now s).results.gpuTimes = s.results.gpuTimes ∧
    (finalizeResults now s).frameCount = s.frameCount ∧
    (finalizeResults now s).isComplete = s.isComplete ∧
    (finalizeResults now s).durationMode = s.durationMode ∧
    (finalizeResults now s).targetFrames = s.targetFrames ∧
    (finalizeResults now s).errorMessage = s.errorMessage := by
  simp [finalizeResults]

theorem endFrame_as_check_fc (now g : ℚ) (s : BenchmarkHarness)
    (hc : s.isComplete = false) :
    ∃ t : BenchmarkHarness,
      endFrame now g s = checkCompletion now t ∧
      t.isComplete = false ∧
      t.durationMode = s.durationMode ∧
      t.targetFrames = s.targetFrames ∧
      t.targetDuration = s.targetDuration ∧
      t.startTime = s.startTime ∧
      t.frameCount = s.frameCount + 1 ∧
      t.results.frames =
        (if 0 < s.frameCount then s.results.frames ++ [now - s.lastFrameTime]
         else s.results.frames) ∧
      t.results.gpuTimes =
        (if 0 < s.frameCount ∧ 0 ≤ g then s.results.gpuTimes ++ [g]
         else s.results.gpuTimes) ∧
      t.errorMessage = s.errorMessage := by
  simp only [endFrame, hc, Bool.false_eq_true, if_false]
  split_ifs with h1 h2 h3 <;>
    exact ⟨_, rfl, by simp_all⟩

theorem checkCompletion_iff (now : ℚ) (t : BenchmarkHarness)
    (hc : t.isComplete = false) :
    (checkCompletion now t).results.frames = t.results.frames ∧
    (checkCompletion now t).results.gpuTimes = t.results.gpuTimes ∧
    (checkCompletion now t).frameCount = t.frameCount ∧
    (checkCompletion now t).durationMode = t.durationMode ∧
    (checkCompletion now t).targetFrames = t.targetFrames ∧
    (checkCompletion now t).errorMessage = t.errorMessage ∧
    ((checkCompletion now t).isComplete = true ↔
      (t.durationMode = Mode.time ∧ t.targetDuration * 1000 < now - t.startTime) ∨
      (t.durationMode = Mode.frames ∧ t.targetFrames ≤ t.frameCount)) := by
  obtain ⟨f1, f2, f3, f4, f5, f6, f7⟩ :=
    finalizeResults_proj now { t with isComplete := true }
  unfold checkCompletion
  cases hd : t.durationMode <;> split_ifs <;> simp_all

theorem framesInv_step (T : ℕ) (op : Op) (s : BenchmarkHarness)
    (h : framesInv T s) : framesInv T (step op s) := by
  obtain ⟨hdm, htf, hlive, hdone⟩ := h
  cases op with
  | startFrame now =>
      obtain ⟨f1, f2, f3, f4, f5⟩ := startFrame_facts now s
      simp only [step]
      exact ⟨by rw [f4, hdm], by rw [f5, htf],
        fun hc => by rw [f1, f2]; exact hlive (by rw [← f3, hc]),
        fun hc => by rw [f1]; exact hdone (by rw [← f3, hc])⟩
  | reportError msg =>
      exact ⟨hdm, htf, hlive, hdone⟩
  | endFrame now g =>
      by_cases hc : s.isComplete = true
      · rw [show step (Op.endFrame now g) s = s from endFrame_complete now g s hc]
        exact ⟨hdm, htf, hlive, hdone⟩
      · replace hc : s.isComplete = false := by
          cases hxc : s.isComplete
          · rfl
          · exact absurd hxc hc
        obtain ⟨hk, hlen⟩ := hlive hc
        obtain ⟨t, heq, tc, tdm, ttf, ttd, tst, tfc, tfr, tgpu, terr⟩ :=
          endFrame_as_check_fc now g s hc
        obtain ⟨c1, c2, c3, c4, c5, c6, c7⟩ := checkCompletion_iff now t tc
        have hlen_t : t.results.frames.length = s.frameCount := by
          rw [tfr]
          split_ifs with h0
          · simp [hlen]; omega
          · simp [hlen]; omega
        have hdm_t : t.durationMode = Mode.frames := by rw [tdm, hdm]
        refine ⟨?_, ?_, ?_, ?_⟩
        · show (step (Op.endFrame now g) s).durationMode = Mode.frames
          rw [show step (Op.endFrame now g) s = checkCompletion now t from heq,
            c4, hdm_t]
        · show (step (Op.endFrame now g) s).targetFrames = T
          rw [show step (Op.endFrame now g) s = checkCompletion now t from heq,
            c5, ttf, htf]
        · intro hnc
          rw [show step (Op.endFrame now g) s = checkCompletion now t from heq] at hnc ⊢
          have hnostop : ¬ (T ≤ s.frameCount + 1) := by
            intro hstop
            have : (checkCompletion now t).isComplete = true := by
              rw [c7]
              right
              exact ⟨hdm_t, by rw [ttf, htf, tfc]; exact hstop⟩
            rw [this] at hnc
            simp at hnc
          constructor
          · rw [c3, tfc]; omega
          · rw [c1, hlen_t, c3, tfc]; omega
        · intro hcm
          rw [show step (Op.endFrame now g) s = checkCompletion now t from heq] at hcm ⊢
          have hstop : (t.durationMode = Mode.time ∧
              t.targetDuration * 1000 < now - t.startTime) ∨
              (t.durationMode = Mode.frames ∧ t.targetFrames ≤ t.frameCount) :=
            c7.mp hcm
          have hTle : T ≤ s.frameCount + 1 := by
            rcases hstop with ⟨hmode, _⟩ | ⟨_, hle⟩
            · rw [hdm_t] at hmode
              exact absurd hmode (by simp)
            · rw [ttf, htf, tfc] at hle
              exact hle
          rw [c1, hlen_t]
          omega

theorem framesInv_run (T : ℕ) (ops : List Op) (s : BenchmarkHarness)
    (h : framesInv T s) : framesInv T (run ops s) := by
  induction ops generalizing s with
  | nil => simpa [run_nil_fc] using h
  | cons op ops ih => exact ih (step op s) (framesInv_step T op s h)

theorem framesInv_initCfg (T : ℕ) (hT : 0 < T) : framesInv T (initCfg T) := by
  refine ⟨rfl, rfl, ?_, ?_⟩
  · intro _
    exact ⟨hT, rfl⟩
  · intro hc
    simp [initCfg, BenchmarkHarness.init] at hc

end Part007

/-- C1: while the timed harness is warming up (`isWarmingUp = true`
before and after an arbitrary sequence of `startFrame`, `endFrame` and
GPU-timestamp calls), the `frames`, `cpuTimes` and `gpuTimes` sequences
of its results are unchanged — no sample is appended during the Warmup
phase, so warm-up samples never reach the finalized result. -/
theorem warmup_appends_no_samples (s : Part006.BenchmarkHarness)
    (ops : List Part006.Op)
    (h0 : s.isWarmingUp = true)
    (h1 : (Part006.run ops s).isWarmingUp = true) :
    (Part006.run ops s).results.frames = s.results.frames ∧
    (Part006.run ops s).results.cpuTimes = s.results.cpuTimes ∧
    (Part006.run ops s).results.gpuTimes = s.results.gpuTimes := by
  induction ops generalizing s with
  | nil => simp [Part006.run_nil]
  | cons op ops ih =>
      rw [Part006.run_cons] at h1 ⊢
      rcases Bool.eq_false_or_eq_true ((Part006.step op s).isWarmingUp) with hw | hw
      · obtain ⟨e1, e2, e3⟩ := Part006.step_warmup_samples op s h0
        obtain ⟨g1, g2, g3⟩ := ih (Part006.step op s) hw h1
        exact ⟨g1.trans e1, g2.trans e2, g3.trans e3⟩
      · have := Part006.run_warmup_mono ops (Part006.step op s) hw
        rw [h1] at this
        simp at this

/-- C1 witness: a concrete warm-up trace (the default harness, frame
calls well inside the 1000 ms warm-up window) stays in Warmup and
collects no samples. -/
theorem warmup_appends_no_samples_witness :
    Part006.BenchmarkHarness.init.isWarmingUp = true ∧
    (Part006.run
      [Part006.Op.startFrame 10, Part006.Op.endFrame 20,
       Part006.Op.resolveGPUTimestamp 0 5, Part006.Op.beginGPUTimestamp]
      Part006.BenchmarkHarness.init).isWarmingUp = true ∧
    (Part006.run
      [Part006.Op.startFrame 10, Part006.Op.endFrame 20,
       Part006.Op.resolveGPUTimestamp 0 5, Part006.Op.beginGPUTimestamp]
      Part006.BenchmarkHarness.init).results.frames = [] ∧
    (Part006.run
      [Part006.Op.startFrame 10, Part006.Op.endFrame 20,
       Part006.Op.resolveGPUTimestamp 0 5, Part006.Op.beginGPUTimestamp]
      Part006.BenchmarkHarness.init).results.cpuTimes = [] ∧
    (Part006.run
      [Part006.Op.startFrame 10, Part006.Op.endFrame 20,
       Part006.Op.resolveGPUTimestamp 0 5, Part006.Op.beginGPUTimestamp]
      Part006.BenchmarkHarness.init).results.gpuTimes = [] := by
  have h1 : (Part006.run
      [Part006.Op.startFrame 10, Part006.Op.endFrame 20,
       Part006.Op.resolveGPUTimestamp 0 5, Part006.Op.beginGPUTimestamp]
      Part006.BenchmarkHarness.init).isWarmingUp = true := by
    norm_num [Part006.run, Part006.step, Part006.BenchmarkHarness.startFrame,
      Part006.endFrame, Part006.resolveGPUTimestamp, Part006.beginGPUTimestamp,
      Part006.BenchmarkHarness.init, Part006.Results.reset]
  obtain ⟨g1, g2, g3⟩ :=
    warmup_appends_no_samples Part006.BenchmarkHarness.init
      [Part006.Op.startFrame 10, Part006.Op.endFrame 20,
       Part006.Op.resolveGPUTimestamp 0 5, Part006.Op.beginGPUTimestamp]
      rfl h1
  exact ⟨rfl, h1, g1, g2, g3⟩

/-- C2 counterexample: from the default harness (Warmup, reference clock
at 0), `startFrame` at time 1001 exceeds the 1000 ms warm-up duration
and exits Warmup, but does not return before placing the CPU start
mark, and the `endFrame` of that same iteration at time 1010 appends a
wall-clock sample (9 ms) and a CPU sample — the claim says that
iteration appends nothing. -/
theorem warmup_exit_iteration_recorded_cex :
    Part006.BenchmarkHarness.init.isWarmingUp = true ∧
    ((1001 : ℚ) - Part006.BenchmarkHarness.init.startTime)
      > Part006.BenchmarkHarness.init.warmupDuration ∧
    (Part006.BenchmarkHarness.startFrame 1001
      Part006.BenchmarkHarness.init).isWarmingUp = false ∧
    (Part006.BenchmarkHarness.startFrame 1001
      Part006.BenchmarkHarness.init).cpuMark = some 1001 ∧
    (Part006.endFrame 1010 (Part006.BenchmarkHarness.startFrame 1001
      Part006.BenchmarkHarness.init)).results.frames = [9] ∧
    (Part006.endFrame 1010 (Part006.BenchmarkHarness.startFrame 1001
      Part006.BenchmarkHarness.init)).results.cpuTimes = [9] := by
  norm_num [Part006.BenchmarkHarness.init, Part006.BenchmarkHarness.startFrame,
    Part006.endFrame, Part006.measuredCpuTime, Part006.checkCompletion,
    Part006.Results.reset]

/-- C2 (amended): when `startFrame` runs during Warmup and the elapsed
time strictly exceeds the warm-up duration, the harness transitions to
Recording, resets the reference clock and active frame count — but
falls through to start the CPU measurement for that very iteration
instead of returning, and the `endFrame` of that same iteration appends
the first wall-clock and CPU samples. -/
theorem warmup_exit_transition (s : Part006.BenchmarkHarness) (now later : ℚ)
    (hc : s.isComplete = false) (hw : s.isWarmingUp = true)
    (hdur : s.warmupDuration < now - s.startTime) :
    (Part006.BenchmarkHarness.startFrame now s).isWarmingUp = false ∧
    (Part006.BenchmarkHarness.startFrame now s).startTime = now ∧
    (Part006.BenchmarkHarness.startFrame now s).lastFrameTime = now ∧
    (Part006.BenchmarkHarness.startFrame now s).activeFrameCount = 0 ∧
    (Part006.BenchmarkHarness.startFrame now s).cpuMark = some now ∧
    (Part006.BenchmarkHarness.startFrame now s).results = s.results ∧
    (Part006.endFrame later (Part006.BenchmarkHarness.startFrame now s)).results.frames
      = s.results.frames ++ [later - now] ∧
    (Part006.endFrame later (Part006.BenchmarkHarness.startFrame now s)).results.cpuTimes
      = s.results.cpuTimes ++ [later - now] := by
  have hs1 : Part006.BenchmarkHarness.startFrame now s =
      { s with isWarmingUp := false, startTime := now, lastFrameTime := now,
               activeFrameCount := 0, cpuMark := some now } := by
    simp [Part006.BenchmarkHarness.startFrame, hc, hw, hdur]
  rw [hs1]
  obtain ⟨e1, e2, _⟩ :=
    Part006.endFrame_recording later
      { s with isWarmingUp := false, startTime := now, lastFrameTime := now,
               activeFrameCount := 0, cpuMark := some now }
      (by simp [hc]) (by simp)
  refine ⟨rfl, rfl, rfl, rfl, rfl, rfl, ?_, ?_⟩
  · simpa using e1
  · simpa [Part006.measuredCpuTime] using e2

/-- C2 witness: the amended transition behaviour at the concrete inputs
of the counterexample (warm-up exit at 1001 ms, frame end at 1010). -/
theorem warmup_exit_transition_witness :
    (Part006.BenchmarkHarness.init.isComplete = false ∧
     Part006.BenchmarkHarness.init.isWarmingUp = true ∧
     Part006.BenchmarkHarness.init.warmupDuration
       < (1001 : ℚ) - Part006.BenchmarkHarness.init.startTime) ∧
    (Part006.endFrame 1010 (Part006.BenchmarkHarness.startFrame 1001
      Part006.BenchmarkHarness.init)).results.frames
      = Part006.BenchmarkHarness.init.results.frames ++ [(1010 : ℚ) - 1001] := by
  have hdur : Part006.BenchmarkHarness.init.warmupDuration
      < (1001 : ℚ) - Part006.BenchmarkHarness.init.startTime := by
    norm_num [Part006.BenchmarkHarness.init]
  exact ⟨⟨rfl, rfl, hdur⟩,
    (warmup_exit_transition Part006.BenchmarkHarness.init 1001 1010
      rfl rfl hdur).2.2.2.2.2.2.1⟩

/-- C3: once the timed harness is Complete, any further driver calls
(`startFrame`, `endFrame`, GPU-timestamp calls, `reportError`) leave
`isComplete` true and the whole results record (hence every sample
count) unchanged, and the warm-up flag cannot be re-entered — the phase
never returns to Warmup or Recording.  Likewise the frame-count
harness's `endFrame` is a strict no-op once complete. -/
theorem complete_is_absorbing (s : Part006.BenchmarkHarness)
    (ops : List Part006.Op) (h : s.isComplete = true) :
    (Part006.run ops s).isComplete = true ∧
    (Part006.run ops s).results = s.results ∧
    (Part006.run ops s).isWarmingUp = s.isWarmingUp ∧
    (∀ (t : Part007.BenchmarkHarness) (now g : ℚ), t.isComplete = true →
      Part007.endFrame now g t = t) := by
  obtain ⟨g1, g2, _, g4⟩ := Part006.run_complete ops s h
  exact ⟨g1, g2, g4, fun t now g ht => Part007.endFrame_complete now g t ht⟩

/-- C3 witness: a concrete completed run (warm-up exit at 1001, endFrame
at 4002 completes the 3 s recording window), after which further frame
and error calls change nothing. -/
theorem complete_is_absorbing_witness :
    (Part006.endFrame 4002 (Part006.BenchmarkHarness.startFrame 1001
      Part006.BenchmarkHarness.init)).isComplete = true ∧
    ((Part006.run
        [Part006.Op.reportError "late", Part006.Op.startFrame 5000,
         Part006.Op.endFrame 5010]
        (Part006.endFrame 4002 (Part006.BenchmarkHarness.startFrame 1001
          Part006.BenchmarkHarness.init))).isComplete = true ∧
     (Part006.run
        [Part006.Op.reportError "late", Part006.Op.startFrame 5000,
         Part006.Op.endFrame 5010]
        (Part006.endFrame 4002 (Part006.BenchmarkHarness.startFrame 1001
          Part006.BenchmarkHarness.init))).results
        = (Part006.endFrame 4002 (Part006.BenchmarkHarness.startFrame 1001
          Part006.BenchmarkHarness.init)).results) := by
  have hcomp : (Part006.endFrame 4002 (Part006.BenchmarkHarness.startFrame 1001
      Part006.BenchmarkHarness.init)).isComplete = true := by
    norm_num [Part006.BenchmarkHarness.init, Part006.BenchmarkHarness.startFrame,
      Part006.endFrame, Part006.checkCompletion, Part006.finalizeResults,
      Part006.measuredCpuTime, Part006.Results.reset]
  obtain ⟨g1, g2, _, _⟩ :=
    complete_is_absorbing
      (Part006.endFrame 4002 (Part006.BenchmarkHarness.startFrame 1001
        Part006.BenchmarkHarness.init))
      [Part006.Op.reportError "late", Part006.Op.startFrame 5000,
       Part006.Op.endFrame 5010] hcomp
  exact ⟨hcomp, g1, g2⟩

/-- C4: for every nonempty sample sequence, `getP95` returns the element
of the ascending sort (a sorted permutation of the input) at zero-based
index `floor(0.95 * length)`; in particular on 1..20 the index is 19 and
the value is 20, the maximum. -/
theorem p95_nearest_rank :
    (∀ xs : List ℚ, xs ≠ [] →
      List.Perm (sortAscending xs) xs ∧
      List.Sorted (· ≤ ·) (sortAscending xs) ∧
      ∃ hlt : p95Index xs.length < (sortAscending xs).length,
        getP95 xs = (sortAscending xs).get ⟨p95Index xs.length, hlt⟩) ∧
    p95Index oneToTwenty.length = 19 ∧
    getP95 oneToTwenty = 20 := by
  refine ⟨fun xs h => ⟨List.perm_insertionSort (· ≤ ·) xs,
    List.sorted_insertionSort (· ≤ ·) xs, getP95_eq_get xs h⟩, ?_, ?_⟩
  · rw [show oneToTwenty.length = 20 from rfl, p95Index_eq]
  · have hidx : p95Index oneToTwenty.length = 19 := by
      rw [show oneToTwenty.length = 20 from rfl, p95Index_eq]
    rw [getP95, hidx]
    decide

/-- C4 witness: the general nearest-rank characterization instantiated
at the concrete sequence 1..20. -/
theorem p95_nearest_rank_witness :
    oneToTwenty ≠ [] ∧
    (List.Perm (sortAscending oneToTwenty) oneToTwenty ∧
     List.Sorted (· ≤ ·) (sortAscending oneToTwenty) ∧
     ∃ hlt : p95Index oneToTwenty.length < (sortAscending oneToTwenty).length,
       getP95 oneToTwenty
         = (sortAscending oneToTwenty).get ⟨p95Index oneToTwenty.length, hlt⟩) := by
  exact ⟨by decide, p95_nearest_rank.1 oneToTwenty (by decide)⟩

/-- C5: the mean is the reduce-sum divided by the length, and the
standard deviation is the population standard deviation (square root of
the mean squared deviation, no sample correction); consequently
`mean [1,2,3,4] = 5/2`, `stddev [5,5,5,5] = 0`, and aggregating ten
trials with fps values `[58,59,60,61,60,59,58,62,60,61]` yields
`meanFps = 59.8 = 299/5` and `stdFps` equal to the population standard
deviation of that list (the square root of the variance `39/25`). -/
theorem statistics_population_moments :
    (∀ xs : List ℚ, xs ≠ [] → getMean xs = xs.sum / xs.length) ∧
    (∀ xs : List ℚ, xs ≠ [] → getStdDev xs (getMean xs) = populationStdDev xs) ∧
    getMean [1, 2, 3, 4] = 5 / 2 ∧
    getStdDev [5, 5, 5, 5] (getMean [5, 5, 5, 5]) = 0 ∧
    AggEntry.meanFpsField
      (aggregatePoint "webgpu" "A" 1 (fpsValues.map (fun q => some (trialWithFps q))))
      = some (299 / 5) ∧
    AggEntry.stdFpsField
      (aggregatePoint "webgpu" "A" 1 (fpsValues.map (fun q => some (trialWithFps q))))
      = some (populationStdDev fpsValues) ∧
    getVariance fpsValues (getMean fpsValues) = 39 / 25 := by
  have hruns : ((fpsValues.map (fun q => some (trialWithFps q))).filterMap id)
      = fpsValues.map trialWithFps := by
    rw [List.filterMap_map]
    exact List.filterMap_eq_map trialWithFps ▸ rfl
  have hfps : (fpsValues.map trialWithFps).map TrialMetrics.fps = fpsValues := by
    rw [List.map_map]
    have hcomp : TrialMetrics.fps ∘ trialWithFps = id := by
      funext q
      rfl
    rw [hcomp, List.map_id]
  refine ⟨fun xs _ => by rw [getMean, listSum_eq_sum],
    fun xs _ => getStdDev_eq_populationStdDev xs, ?_, ?_, ?_, ?_, ?_⟩
  · norm_num [getMean, listSum]
  · have hv : getVariance [5, 5, 5, 5] (getMean [5, 5, 5, 5]) = 0 := by
      norm_num [getVariance, getMean, listSum]
    rw [getStdDev, hv]
    simp
  · simp only [aggregatePoint, hruns]
    rw [if_pos (by simp [fpsValues])]
    simp only [AggEntry.meanFpsField, hfps]
    norm_num [getMean, listSum, fpsValues]
  · simp only [aggregatePoint, hruns]
    rw [if_pos (by simp [fpsValues])]
    simp only [AggEntry.stdFpsField, hfps]
    rw [getStdDev_eq_populationStdDev]
  · norm_num [getVariance, getMean, listSum, fpsValues]

/-- C5 witness: the general mean and standard-deviation laws
instantiated at the concrete nonempty sequences of the claim. -/
theorem statistics_population_moments_witness :
    ([1, 2, 3, 4] : List ℚ) ≠ [] ∧
    getMean [1, 2, 3, 4] = ([1, 2, 3, 4] : List ℚ).sum / ([1, 2, 3, 4] : List ℚ).length ∧
    (fpsValues ≠ [] ∧
     getStdDev fpsValues (getMean fpsValues) = populationStdDev fpsValues) := by
  exact ⟨by decide,
    statistics_population_moments.1 [1, 2, 3, 4] (by decide),
    by decide,
    statistics_population_moments.2.1 fpsValues (by decide)⟩

/-- C6 counterexample: with the default time-mode settings
(targetDuration 3 s), after the warm-up exit at 1001 the `endFrame` at
4001 sees an elapsed recording time of exactly `targetDuration * 1000`
= 3000 ms, which the claim (`elapsed ≥ target`) says must complete the
trial — but the harness compares strictly and stays incomplete. -/
theorem time_stop_boundary_cex :
    (Part006.BenchmarkHarness.startFrame 1001
      Part006.BenchmarkHarness.init).durationMode = Mode.time ∧
    (4001 : ℚ) - (Part006.BenchmarkHarness.startFrame 1001
      Part006.BenchmarkHarness.init).startTime
      = (Part006.BenchmarkHarness.startFrame 1001
          Part006.BenchmarkHarness.init).targetDuration * 1000 ∧
    (Part006.endFrame 4001 (Part006.BenchmarkHarness.startFrame 1001
      Part006.BenchmarkHarness.init)).isComplete = false := by
  norm_num [Part006.BenchmarkHarness.init, Part006.BenchmarkHarness.startFrame,
    Part006.endFrame, Part006.checkCompletion, Part006.finalizeResults,
    Part006.measuredCpuTime, Part006.Results.reset]

/-- C6 (amended): an `endFrame` on a Recording timed harness completes
the trial exactly when, in time mode, the elapsed recording time
strictly exceeds `targetDuration * 1000` ms (not at `≥` the target), or,
in frames mode, the incremented active frame count has reached
`targetFrames`.  Upon completion the statistics are those of the full
final sample sequences, `totalTime` is set, the completion signal fires
exactly once, and afterwards the results and the signal count are
frozen.  The frame-count harness's `checkCompletion` uses the same
strict time comparison. -/
theorem trial_completion_condition (s : Part006.BenchmarkHarness) (now : ℚ)
    (hc : s.isComplete = false) (hw : s.isWarmingUp = false) :
    ((Part006.endFrame now s).isComplete = true ↔
      (s.durationMode = Mode.time ∧ s.targetDuration * 1000 < now - s.startTime) ∨
      (s.durationMode = Mode.frames ∧ s.targetFrames ≤ s.activeFrameCount + 1)) ∧
    ((Part006.endFrame now s).isComplete = true →
      (Part006.endFrame now s).finalizeCount = s.finalizeCount + 1 ∧
      (Part006.endFrame now s).results.totalTime = now - s.startTime ∧
      (Part006.endFrame now s).results.meanFrameTime
        = getMean ((Part006.endFrame now s).results.frames) ∧
      (Part006.endFrame now s).results.p95FrameTime
        = getP95 ((Part006.endFrame now s).results.frames) ∧
      (Part006.endFrame now s).results.fps
        = 1000 / getMean ((Part006.endFrame now s).results.frames) ∧
      (Part006.endFrame now s).results.meanCpuTime
        = getMean ((Part006.endFrame now s).results.cpuTimes)) ∧
    ((Part006.endFrame now s).isComplete = false →
      (Part006.endFrame now s).finalizeCount = s.finalizeCount) ∧
    (∀ ops : List Part006.Op, (Part006.endFrame now s).isComplete = true →
      (Part006.run ops (Part006.endFrame now s)).results
        = (Part006.endFrame now s).results ∧
      (Part006.run ops (Part006.endFrame now s)).finalizeCount
        = (Part006.endFrame now s).finalizeCount) ∧
    (∀ (t : Part007.BenchmarkHarness) (now7 : ℚ), t.isComplete = false →
      ((Part007.checkCompletion now7 t).isComplete = true ↔
        (t.durationMode = Mode.time ∧ t.targetDuration * 1000 < now7 - t.startTime) ∨
        (t.durationMode = Mode.frames ∧ t.targetFrames ≤ t.frameCount))) := by
  obtain ⟨e1, e2, e3, e4, e5, e6, e7, e8, e9⟩ :=
    Part006.endFrame_recording now s hc hw
  refine ⟨e7, e8, e9, ?_, ?_⟩
  · intro ops hcm
    obtain ⟨g1, g2, g3, _⟩ := Part006.run_complete ops (Part006.endFrame now s) hcm
    exact ⟨g2, g3⟩
  · intro t now7 ht
    exact (Part007.checkCompletion_iff now7 t ht).2.2.2.2.2.2

/-- C6 witness: at the concrete boundary-plus-one input (endFrame at
4002, elapsed 3001 ms > 3000 ms) the strict condition holds and the
trial completes. -/
theorem trial_completion_condition_witness :
    ((Part006.BenchmarkHarness.startFrame 1001
        Part006.BenchmarkHarness.init).isComplete = false ∧
     (Part006.BenchmarkHarness.startFrame 1001
        Part006.BenchmarkHarness.init).isWarmingUp = false) ∧
    (Part006.endFrame 4002 (Part006.BenchmarkHarness.startFrame 1001
      Part006.BenchmarkHarness.init)).isComplete = true := by
  have hc : (Part006.BenchmarkHarness.startFrame 1001
      Part006.BenchmarkHarness.init).isComplete = false := by
    norm_num [Part006.BenchmarkHarness.init, Part006.BenchmarkHarness.startFrame]
  have hw : (Part006.BenchmarkHarness.startFrame 1001
      Part006.BenchmarkHarness.init).isWarmingUp = false := by
    norm_num [Part006.BenchmarkHarness.init, Part006.BenchmarkHarness.startFrame]
  refine ⟨⟨hc, hw⟩, ?_⟩
  refine (trial_completion_condition _ 4002 hc hw).1.mpr (Or.inl ⟨?_, ?_⟩)
  · norm_num [Part006.BenchmarkHarness.init, Part006.BenchmarkHarness.startFrame]
  · norm_num [Part006.BenchmarkHarness.init, Part006.BenchmarkHarness.startFrame]

/-- C7: a GPU duration is appended by `resolveGPUTimestamp` exactly when
the timestamp capability is supported, the harness is in the Recording
flag state (not warming up, not complete) and the computed duration is
nonnegative; when unsupported, `resolveGPUTimestamp` returns the -1
sentinel with the state untouched and the begin/end marker calls issue
nothing; a negative computed duration is discarded; and no driver call
ever changes the support flag — the unsupported negotiation outcome is
permanent. -/
theorem gpu_timestamp_gating (s : Part006.BenchmarkHarness) (a b : ℚ) :
    ((Part006.resolveGPUTimestamp a b s).1.results.gpuTimes
        = s.results.gpuTimes ++ [(b - a) / 1000000] ↔
      (s.gpuSupportTimestamp = true ∧ s.isWarmingUp = false ∧
       s.isComplete = false ∧ 0 ≤ (b - a) / 1000000)) ∧
    (s.gpuSupportTimestamp = false →
      Part006.resolveGPUTimestamp a b s = (s, -1) ∧
      Part006.beginGPUTimestamp s = (s, false) ∧
      Part006.endGPUTimestamp s = (s, false)) ∧
    ((b - a) / 1000000 < 0 → (Part006.resolveGPUTimestamp a b s).1 = s) ∧
    (∀ op : Part006.Op,
      (Part006.step op s).gpuSupportTimestamp = s.gpuSupportTimestamp) := by
  refine ⟨?_, ?_, ?_, fun op => Part006.step_gpuSupport op s⟩
  · cases hg : s.gpuSupportTimestamp <;>
      cases hw : s.isWarmingUp <;>
      cases hcp : s.isComplete <;>
      by_cases hd : 0 ≤ (b - a) / 1000000 <;>
      simp [Part006.resolveGPUTimestamp, hg, hw, hcp, hd]
  · intro hg
    refine ⟨?_, ?_, ?_⟩ <;>
      simp [Part006.resolveGPUTimestamp, Part006.beginGPUTimestamp,
        Part006.endGPUTimestamp, hg]
  · intro hd
    have : ¬ (0 ≤ (b - a) / 1000000) := not_le.mpr hd
    simp only [Part006.resolveGPUTimestamp]
    split_ifs <;> simp_all

/-- C7 witness: on a supported, recording harness the resolve of raw
timestamps 0 and 2000000 ns appends the 2 ms duration, and the
unsupported branch at the default harness returns the sentinel. -/
theorem gpu_timestamp_gating_witness :
    ((Part006.BenchmarkHarness.startFrame 1001
        (Part006.BenchmarkHarness.initWebGPUTimestamps true
          Part006.BenchmarkHarness.init)).gpuSupportTimestamp = true ∧
     (Part006.BenchmarkHarness.startFrame 1001
        (Part006.BenchmarkHarness.initWebGPUTimestamps true
          Part006.BenchmarkHarness.init)).isWarmingUp = false ∧
     (Part006.BenchmarkHarness.startFrame 1001
        (Part006.BenchmarkHarness.initWebGPUTimestamps true
          Part006.BenchmarkHarness.init)).isComplete = false ∧
     (0 : ℚ) ≤ ((2000000 : ℚ) - 0) / 1000000) ∧
    (Part006.resolveGPUTimestamp 0 2000000
      (Part006.BenchmarkHarness.startFrame 1001
        (Part006.BenchmarkHarness.initWebGPUTimestamps true
          Part006.BenchmarkHarness.init))).1.results.gpuTimes
      = (Part006.BenchmarkHarness.startFrame 1001
          (Part006.BenchmarkHarness.initWebGPUTimestamps true
            Part006.BenchmarkHarness.init)).results.gpuTimes
        ++ [((2000000 : ℚ) - 0) / 1000000] ∧
    Part006.BenchmarkHarness.init.gpuSupportTimestamp = false ∧
    Part006.resolveGPUTimestamp 0 2000000 Part006.BenchmarkHarness.init
      = (Part006.BenchmarkHarness.init, -1) := by
  have h1 : (Part006.BenchmarkHarness.startFrame 1001
      (Part006.BenchmarkHarness.initWebGPUTimestamps true
        Part006.BenchmarkHarness.init)).gpuSupportTimestamp = true := by
    norm_num [Part006.BenchmarkHarness.init, Part006.BenchmarkHarness.startFrame,
      Part006.BenchmarkHarness.initWebGPUTimestamps]
  have h2 : (Part006.BenchmarkHarness.startFrame 1001
      (Part006.BenchmarkHarness.initWebGPUTimestamps true
        Part006.BenchmarkHarness.init)).isWarmingUp = false := by
    norm_num [Part006.BenchmarkHarness.init, Part006.BenchmarkHarness.startFrame,
      Part006.BenchmarkHarness.initWebGPUTimestamps]
  have h3 : (Part006.BenchmarkHarness.startFrame 1001
      (Part006.BenchmarkHarness.initWebGPUTimestamps true
        Part006.BenchmarkHarness.init)).isComplete = false := by
    norm_num [Part006.BenchmarkHarness.init, Part006.BenchmarkHarness.startFrame,
      Part006.BenchmarkHarness.initWebGPUTimestamps]
  have h4 : (0 : ℚ) ≤ ((2000000 : ℚ) - 0) / 1000000 := by norm_num
  refine ⟨⟨h1, h2, h3, h4⟩,
    (gpu_timestamp_gating _ 0 2000000).1.mpr ⟨h1, h2, h3, h4⟩,
    rfl,
    (gpu_timestamp_gating Part006.BenchmarkHarness.init 0 2000000).2.1 rfl |>.1⟩

/-- C8 counterexample: `reportError` on a Recording harness leaves both
phase flags untouched, and the very next `endFrame` still appends a
sample (frames = [9]) — contradicting the claim that after
`reportError` the sample sequences remain unchanged under every
subsequent call sequence. -/
theorem report_error_not_terminal_cex :
    (Part006.reportError "boom" (Part006.BenchmarkHarness.startFrame 1001
      Part006.BenchmarkHarness.init)).isComplete = false ∧
    (Part006.reportError "boom" (Part006.BenchmarkHarness.startFrame 1001
      Part006.BenchmarkHarness.init)).isWarmingUp = false ∧
    (Part006.reportError "boom" (Part006.BenchmarkHarness.startFrame 1001
      Part006.BenchmarkHarness.init)).errorMessage = some "boom" ∧
    (Part006.endFrame 1010 (Part006.reportError "boom"
      (Part006.BenchmarkHarness.startFrame 1001
        Part006.BenchmarkHarness.init))).results.frames = [9] := by
  norm_num [Part006.BenchmarkHarness.init, Part006.BenchmarkHarness.startFrame,
    Part006.reportError, Part006.endFrame, Part006.measuredCpuTime,
    Part006.checkCompletion, Part006.Results.reset]

/-- C8 (amended): `reportError` records the message in the error marker
and surfaces it, but performs no phase transition: the warm-up and
completion flags and the whole results record are unchanged, and a
subsequent `endFrame` on a Recording harness still appends a wall-clock
sample.  Stopping the frame loop after an error is the caller's
responsibility (`Scenario.run` calls `stop()` after `reportError`), not
an invariant enforced by the harness itself. -/
theorem report_error_records_only (s : Part006.BenchmarkHarness)
    (msg : String) (now : ℚ) :
    (Part006.reportError msg s).errorMessage = some msg ∧
    (Part006.reportError msg s).results = s.results ∧
    (Part006.reportError msg s).isComplete = s.isComplete ∧
    (Part006.reportError msg s).isWarmingUp = s.isWarmingUp ∧
    (s.isComplete = false → s.isWarmingUp = false →
      (Part006.endFrame now (Part006.reportError msg s)).results.frames
        = s.results.frames ++ [now - s.lastFrameTime]) := by
  refine ⟨rfl, rfl, rfl, rfl, fun hc hw => ?_⟩
  obtain ⟨e1, _⟩ :=
    Part006.endFrame_recording now (Part006.reportError msg s)
      (by simpa [Part006.reportError] using hc)
      (by simpa [Part006.reportError] using hw)
  simpa [Part006.reportError] using e1

/-- C8 witness: the amended behaviour at the counterexample's concrete
inputs. -/
theorem report_error_records_only_witness :
    ((Part006.BenchmarkHarness.startFrame 1001
        Part006.BenchmarkHarness.init).isComplete = false ∧
     (Part006.BenchmarkHarness.startFrame 1001
        Part006.BenchmarkHarness.init).isWarmingUp = false) ∧
    (Part006.reportError "boom" (Part006.BenchmarkHarness.startFrame 1001
      Part006.BenchmarkHarness.init)).errorMessage = some "boom" ∧
    (Part006.endFrame 1010 (Part006.reportError "boom"
      (Part006.BenchmarkHarness.startFrame 1001
        Part006.BenchmarkHarness.init))).results.frames
      = (Part006.BenchmarkHarness.startFrame 1001
          Part006.BenchmarkHarness.init).results.frames
        ++ [(1010 : ℚ) - (Part006.BenchmarkHarness.startFrame 1001
              Part006.BenchmarkHarness.init).lastFrameTime] := by
  have hc : (Part006.BenchmarkHarness.startFrame 1001
      Part006.BenchmarkHarness.init).isComplete = false := by
    norm_num [Part006.BenchmarkHarness.init, Part006.BenchmarkHarness.startFrame]
  have hw : (Part006.BenchmarkHarness.startFrame 1001
      Part006.BenchmarkHarness.init).isWarmingUp = false := by
    norm_num [Part006.BenchmarkHarness.init, Part006.BenchmarkHarness.startFrame]
  obtain ⟨g1, _, _, _, g5⟩ :=
    report_error_records_only (Part006.BenchmarkHarness.startFrame 1001
      Part006.BenchmarkHarness.init) "boom" 1010
  exact ⟨⟨hc, hw⟩, g1, g5 hc hw⟩

/-- C9 counterexample: the entry the sweep records for a configuration
point whose ten runs all failed is the failure variant, which carries no
`runsSuccessful` field at all — in particular its `runsSuccessful`
projection is absent, not 0. -/
theorem all_failed_entry_no_runs_field_cex :
    AggEntry.runsSuccessfulField
      (aggregatePoint "webgl" "A" 1 (List.replicate 10 none)) = none ∧
    AggEntry.runsSuccessfulField
      (aggregatePoint "webgl" "A" 1 (List.replicate 10 none)) ≠ some 0 := by
  have h : AggEntry.runsSuccessfulField
      (aggregatePoint "webgl" "A" 1 (List.replicate 10 none)) = none := rfl
  refine ⟨h, ?_⟩
  rw [h]
  simp

/-- C9 (amended): a configuration point whose trials all fail yields the
explicit failure entry — only the coordinate plus the error marker
`All runs failed`, with no statistics fields and in particular no
`runsSuccessful` field (its CSV row has all eight statistics cells
blank, plus the error message) — and the sweep still emits one
aggregate entry per configuration point, each point's own aggregate,
regardless of such failures. -/
theorem all_trials_failed_isolation (api scenario : String) (count : ℕ)
    (outs : List (Option TrialMetrics)) (h : ∀ o ∈ outs, o = none)
    (pts : List PointRun) :
    aggregatePoint api scenario count outs =
      AggEntry.failure
        { api := api, scenario := scenario, count := count,
          error := "All runs failed" } ∧
    csvRow (aggregatePoint api scenario count outs)
      = (List.replicate 8 none, some "All runs failed") ∧
    (sweep pts).length = pts.length ∧
    (∀ p ∈ pts, aggregatePoint p.api p.scenario p.count p.outcomes ∈ sweep pts) := by
  have hnil : outs.filterMap id = [] := by
    rw [List.filterMap_eq_nil_iff]
    exact h
  have hfail : aggregatePoint api scenario count outs =
      AggEntry.failure
        { api := api, scenario := scenario, count := count,
          error := "All runs failed" } := by
    simp only [aggregatePoint, hnil]
    rfl
  refine ⟨hfail, by rw [hfail, csvRow], by simp [sweep], ?_⟩
  intro p hp
  exact List.mem_map_of_mem (fun p => aggregatePoint p.api p.scenario p.count p.outcomes) hp

/-- C9 witness: a two-point sweep in which the first point's ten runs
all fail still yields an entry for the second point, and the first
point's CSV row is blank. -/
theorem all_trials_failed_isolation_witness :
    (∀ o ∈ (List.replicate 10 (none : Option TrialMetrics)), o = none) ∧
    (aggregatePoint "webgl" "A" 1 (List.replicate 10 none) =
      AggEntry.failure
        { api := "webgl", scenario := "A", count := 1,
          error := "All runs failed" } ∧
     csvRow (aggregatePoint "webgl" "A" 1 (List.replicate 10 none))
       = (List.replicate 8 none, some "All runs failed") ∧
     (sweep [⟨"webgl", "A", 1, List.replicate 10 none⟩,
             ⟨"webgl", "B", 100, [some (trialWithFps 60)]⟩]).length = 2 ∧
     (∀ p ∈ ([⟨"webgl", "A", 1, List.replicate 10 none⟩,
              ⟨"webgl", "B", 100, [some (trialWithFps 60)]⟩] : List PointRun),
        aggregatePoint p.api p.scenario p.count p.outcomes ∈
          sweep [⟨"webgl", "A", 1, List.replicate 10 none⟩,
                 ⟨"webgl", "B", 100, [some (trialWithFps 60)]⟩])) := by
  have h : ∀ o ∈ (List.replicate 10 (none : Option TrialMetrics)), o = none := by
    intro o ho
    exact List.eq_of_mem_replicate ho
  exact ⟨h, all_trials_failed_isolation "webgl" "A" 1 (List.replicate 10 none) h
    [⟨"webgl", "A", 1, List.replicate 10 none⟩,
     ⟨"webgl", "B", 100, [some (trialWithFps 60)]⟩]⟩

/-- C10: in the frame-count harness, an `endFrame` of the first
iteration (`frameCount = 0`) appends nothing while still incrementing
`frameCount`, and consequently every frames-mode run from the
configured initial state that reaches Complete holds exactly
`targetFrames - 1` recorded frame durations. -/
theorem frames_mode_records_target_minus_one (T : ℕ) (hT : 0 < T)
    (ops : List Part007.Op)
    (h : (Part007.run ops (Part007.initCfg T)).isComplete = true) :
    (Part007.run ops (Part007.initCfg T)).results.frames.length = T - 1 ∧
    (∀ (s : Part007.BenchmarkHarness) (now g : ℚ),
      s.isComplete = false → s.frameCount = 0 →
      (Part007.endFrame now g s).results.frames = s.results.frames ∧
      (Part007.endFrame now g s).frameCount = s.frameCount + 1) := by
  constructor
  · exact (Part007.framesInv_run T ops (Part007.initCfg T)
      (Part007.framesInv_initCfg T hT)).2.2.2 h
  · intro s now g hc h0
    obtain ⟨t, heq, tc, _, _, _, _, tfc, tfr, _, _⟩ :=
      Part007.endFrame_as_check_fc now g s hc
    obtain ⟨c1, _, c3, _⟩ := Part007.checkCompletion_iff now t tc
    constructor
    · rw [heq, c1, tfr, if_neg (by omega)]
    · rw [heq, c3, tfc, h0]

/-- C10 witness: a frames-mode run to 3 target frames completes after
three endFrame calls and holds exactly 2 recorded durations. -/
theorem frames_mode_records_target_minus_one_witness :
    (0 < 3 ∧
     (Part007.run
        [Part007.Op.startFrame 0, Part007.Op.endFrame 10 (-1),
         Part007.Op.startFrame 10, Part007.Op.endFrame 20 (-1),
         Part007.Op.startFrame 20, Part007.Op.endFrame 30 (-1)]
        (Part007.initCfg 3)).isComplete = true) ∧
    (Part007.run
        [Part007.Op.startFrame 0, Part007.Op.endFrame 10 (-1),
         Part007.Op.startFrame 10, Part007.Op.endFrame 20 (-1),
         Part007.Op.startFrame 20, Part007.Op.endFrame 30 (-1)]
        (Part007.initCfg 3)).results.frames.length = 3 - 1 := by
  have hcomp : (Part007.run
      [Part007.Op.startFrame 0, Part007.Op.endFrame 10 (-1),
       Part007.Op.startFrame 10, Part007.Op.endFrame 20 (-1),
       Part007.Op.startFrame 20, Part007.Op.endFrame 30 (-1)]
      (Part007.initCfg 3)).isComplete = true := by
    norm_num [Part007.run, Part007.step, Part007.BenchmarkHarness.startFrame,
      Part007.endFrame, Part007.checkCompletion, Part007.finalizeResults,
      Part007.initCfg, Part007.BenchmarkHarness.init]
  exact ⟨⟨by norm_num, hcomp⟩,
    (frames_mode_records_target_minus_one 3 (by norm_num)
      [Part007.Op.startFrame 0, Part007.Op.endFrame 10 (-1),
       Part007.Op.startFrame 10, Part007.Op.endFrame 20 (-1),
       Part007.Op.startFrame 20, Part007.Op.endFrame 30 (-1)] hcomp).1⟩

end Web3d
